import Mathlib

set_option maxRecDepth 8000

/-!
Verification of the VivoPaint masking tool (`script.js`).

The development shallowly embeds the two parts of the program that the
properties are about:

* the session / generation pipeline (`handleImageUpload`, `resizeCanvases`,
  `clearMask`, `runGeneration`, `exportImage`), modelled over explicit RGBA
  pixel buffers; and
* the stroke engine (`startDraw`, `draw`, `stopDraw`, `paint`), modelled over
  the alpha channel of the mask canvas together with the canvas 2D path state,
  following the HTML canvas semantics of `lineTo` / `stroke` / `beginPath` /
  `moveTo` and the Porter-Duff alpha compositing rules for the
  `source-over` and `destination-out` composite operations.

Machine integers of the pixel arrays are modelled as `Nat` with explicit
`% 255` where the source takes a remainder; canvas coordinates are rationals.
-/

/-- One RGBA pixel of an `ImageData` array (each channel `0..255`). -/
structure Pixel where
  r : Nat
  g : Nat
  b : Nat
  a : Nat
deriving DecidableEq, Repr

/-- A fully transparent pixel, the state of a freshly cleared canvas. -/
def Pixel.clear : Pixel := ⟨0, 0, 0, 0⟩

/-- A canvas bitmap: intrinsic pixel dimensions and the RGBA pixel array in
row-major order (index `y*w + x`), as `getImageData` exposes it. -/
structure Canvas where
  w : Nat
  h : Nat
  data : List Pixel
deriving DecidableEq, Repr

/-- The bitmap a canvas holds right after its `width`/`height` attributes are
assigned: per the HTML specification the bitmap is cleared to transparent
black. -/
def Canvas.blank (w h : Nat) : Canvas :=
  ⟨w, h, List.replicate (w * h) Pixel.clear⟩

/-- Read pixel `(x, y)` of a canvas (transparent black outside the bitmap). -/
def Canvas.getPix (c : Canvas) (x y : Nat) : Pixel :=
  c.data.getD (y * c.w + x) Pixel.clear

/-- The active tool (`state.tool`). -/
inductive Tool where
  | brush
  | eraser
deriving DecidableEq, Repr

/-- The session: the fields of the global `state` object together with the
three canvases and the DOM bits the handlers read and write (prompt text,
loader / result / mask visibility). -/
structure Session where
  imageLoaded : Bool
  hasResult : Bool
  tool : Tool
  brushSize : Nat
  promptText : String
  imgC : Canvas
  maskC : Canvas
  resultC : Canvas
  loaderVisible : Bool
  resultVisible : Bool
  maskHidden : Bool
deriving Repr

/-- `clearMask`: `clearRect` over the whole mask canvas, i.e. every pixel of
the mask bitmap becomes transparent black; dimensions are untouched. -/
def clearMask (s : Session) : Session :=
  { s with maskC := ⟨s.maskC.w, s.maskC.h, List.replicate (s.maskC.w * s.maskC.h) Pixel.clear⟩ }

/-- `resizeCanvases w h`: assigns `width`/`height` of the image, mask and
result canvases, which resets each bitmap to transparent black. -/
def resizeCanvases (s : Session) (w h : Nat) : Session :=
  { s with imgC := Canvas.blank w h, maskC := Canvas.blank w h, resultC := Canvas.blank w h }

/-- The final canvas dimensions chosen by `handleImageUpload`: widths above
the 2048 limit are scaled to exactly 2048 while the height is multiplied by
the same ratio; the height the canvas then stores is the value truncated to
an integer (the `unsigned long` coercion of the canvas `height` attribute;
`(h * 2048) / w` in `Nat` is that truncation). -/
def finalDims (w h : Nat) : Nat × Nat :=
  if 2048 < w then (2048, h * 2048 / w) else (w, h)

/-- The pixels `drawImage(img, 0, 0, fw, fh)` leaves on a `fw × fh` canvas.
The resample filter is the browser's choice (the specification fixes none);
it is modelled as nearest-neighbour sampling. No property below depends on
the sampled colour values. -/
def drawScaled (img : Canvas) (fw fh : Nat) : List Pixel :=
  (List.range (fw * fh)).map fun i =>
    img.getPix (i % fw * img.w / fw) (i / fw * img.h / fh)

/-- `handleImageUpload` after the file has been decoded into `img`:
pick the (possibly downscaled) dimensions, resize all three canvases, draw
the scaled image, mark the image loaded, drop any previous result, hide the
result layer, and reset the mask. -/
def handleImageUpload (s : Session) (img : Canvas) : Session :=
  let fw := (finalDims img.w img.h).1
  let fh := (finalDims img.w img.h).2
  let s₁ := resizeCanvases s fw fh
  let s₂ := { s₁ with
    imgC := ⟨fw, fh, drawScaled img fw fh⟩,
    imageLoaded := true,
    hasResult := false,
    resultVisible := false }
  clearMask s₂

/-- The pixel transform the simulation applies under the mask:
`R' = (R+50) % 255`, `G' = (G+20) % 255`, `B' = 200`, alpha unchanged. -/
def transformPixel (p : Pixel) : Pixel :=
  ⟨(p.r + 50) % 255, (p.g + 20) % 255, 200, p.a⟩

/-- The simulation loop of `runGeneration`: it walks the mask pixel array and
the result array (which at that point is a clone of the image), replacing a
result pixel by its transform exactly where the mask alpha is nonzero.
Result pixels beyond the mask array's length are left as cloned. -/
def simulateInpaint : List Pixel → List Pixel → List Pixel
  | _, [] => []
  | [], p :: ps => p :: simulateInpaint [] ps
  | m :: ms, p :: ps => (if 0 < m.a then transformPixel p else p) :: simulateInpaint ms ps

/-- How a run of `runGeneration` ends: one of the two validation `alert`s,
the `catch` branch's `alert`, or success. -/
inductive GenOutcome where
  | validationNoImage
  | validationEmptyPrompt
  | generationFailed
  | success
deriving DecidableEq, Repr

/-- `runGeneration`. Validation first: no loaded image, then an empty prompt,
each aborting with an alert and no state change. Otherwise the loader is
shown and the body of the `try` runs. Its one suspension — the awaited
delay standing in for the backend call — is the fallible step, modelled by
`backendOk`; it precedes every write to the result canvas, so a failure
lands in the `catch`/`finally` with only the loader flag changed. On
success the result canvas is cleared, the image canvas is drawn onto it,
the masked pixels are transformed, the result layer is shown, `hasResult`
is set, the mask layer is hidden, and the loader is cleared. -/
def runGeneration (s : Session) (backendOk : Bool) : GenOutcome × Session :=
  if !s.imageLoaded then (GenOutcome.validationNoImage, s)
  else if s.promptText = "" then (GenOutcome.validationEmptyPrompt, s)
  else
    let s₁ := { s with loaderVisible := true }
    if !backendOk then
      (GenOutcome.generationFailed, { s₁ with loaderVisible := false })
    else
      let cloned := s₁.imgC.data
      let resData := simulateInpaint s₁.maskC.data cloned
      let s₂ := { s₁ with
        resultC := ⟨s₁.resultC.w, s₁.resultC.h, resData⟩,
        resultVisible := true,
        hasResult := true,
        maskHidden := true,
        loaderVisible := false }
      (GenOutcome.success, s₂)

/-- The file `exportImage` produces: its download name and pixel content. -/
structure ExportFile where
  name : String
  content : Canvas
deriving Repr

/-- `exportImage`: a no-op without a loaded image; otherwise downloads the
result canvas when a result exists, else the image canvas. The session is
never mutated. -/
def exportImage (s : Session) : Option ExportFile × Session :=
  if !s.imageLoaded then (none, s)
  else if s.hasResult then (some ⟨"vivopaint-export.png", s.resultC⟩, s)
  else (some ⟨"vivopaint-export.png", s.imgC⟩, s)

/-!
## The stroke engine

`startDraw` / `draw` / `stopDraw` / `paint` act on the mask canvas through
its 2D context: a current path plus a composite operation. The model below
tracks the canvas path state exactly as the HTML canvas specification
defines `lineTo`, `beginPath`, `moveTo` and `stroke`, and tracks the alpha
channel of the mask bitmap: the only consumer of the mask (the generation
loop) reads nothing but alpha, and the two composite operations used —
`source-over` with a fully opaque stroke colour for the brush,
`destination-out` for the eraser — have the Porter-Duff alpha equations
`αo = αs + αd·(1 − αs)` and `αo = αd·(1 − αs)`, written over `0..255`
channel values with truncating division.
-/

/-- A point of the canvas coordinate space (image-space pixels). -/
def Point : Type := ℚ × ℚ
deriving DecidableEq

/-- The context's current path: the list of subpaths, most recent first,
each subpath its points most recent first. -/
def CtxPath : Type := List (List Point)

/-- Canvas `lineTo`: with no subpath it only ensures a subpath for the point;
otherwise it adds a line from the subpath's last point to the new point. -/
def lineToPath (p : Point) : CtxPath → CtxPath
  | [] => [[p]]
  | sp :: rest => (p :: sp) :: rest

/-- The line segments `stroke` traces: adjacent point pairs of each subpath,
with zero-length segments pruned (a subpath holding a single point
contributes nothing). -/
def strokeSegments (path : CtxPath) : List (Point × Point) :=
  path.flatMap fun sp => (sp.zip sp.tail).filter fun ab => decide (ab.1 ≠ ab.2)

/-- Squared distance between two points. -/
def dist2 (p q : Point) : ℚ :=
  (p.1 - q.1) ^ 2 + (p.2 - q.2) ^ 2

/-- Squared distance from `p` to the segment from `a` to `b`. -/
def segDist2 (a b p : Point) : ℚ :=
  let dx := b.1 - a.1
  let dy := b.2 - a.2
  let len2 := dx ^ 2 + dy ^ 2
  if len2 = 0 then dist2 p a
  else
    let t := max 0 (min 1 (((p.1 - a.1) * dx + (p.2 - a.2) * dy) / len2))
    dist2 p (a.1 + t * dx, a.2 + t * dy)

/-- Stroke coverage of the point `p` by a traced path of width `2·halfW`
with round caps and joins: full (255) where some segment's capsule reaches
`p`, none (0) elsewhere. -/
def coverage (segs : List (Point × Point)) (halfW : ℚ) (p : Point) : Nat :=
  if segs.any (fun s => decide (segDist2 s.1 s.2 p ≤ halfW ^ 2)) then 255 else 0

/-- Alpha compositing of stroke coverage `c` over destination alpha `a`
(both over `0..255`): `source-over` for the brush, `destination-out` for
the eraser. -/
def compositeAlpha (tool : Tool) (c a : Nat) : Nat :=
  match tool with
  | Tool.brush => c + a * (255 - c) / 255
  | Tool.eraser => a * (255 - c) / 255

/-- The alpha channel of the mask canvas: width and the row-major alpha
array (pixel `i` sits at `(i % w, i / w)`). -/
structure Mask where
  w : Nat
  alphas : List Nat
deriving DecidableEq, Repr

/-- The canvas point of the pixel at index `i` of a mask of width `w`. -/
def pixPt (w i : Nat) : Point :=
  ((i % w : Nat), (i / w : Nat))

/-- Composite a stroke over the alpha array, pixel by pixel from index `i`. -/
def compositeFrom (tool : Tool) (halfW : ℚ) (segs : List (Point × Point))
    (w : Nat) : Nat → List Nat → List Nat
  | _, [] => []
  | i, a :: rest =>
    compositeAlpha tool (coverage segs halfW (pixPt w i)) a ::
      compositeFrom tool halfW segs w (i + 1) rest

/-- `stroke()` on the mask context: composite the traced path over the whole
mask bitmap under the active tool's composite operation. -/
def applyStroke (tool : Tool) (halfW : ℚ) (segs : List (Point × Point)) (m : Mask) : Mask :=
  ⟨m.w, compositeFrom tool halfW segs m.w 0 m.alphas⟩

/-- The state the drawing handlers act on: the `state` flags they read, the
mask context's current path and the mask bitmap's alpha channel. -/
structure DrawState where
  imageLoaded : Bool
  isDrawing : Bool
  tool : Tool
  brushSize : Nat
  path : CtxPath
  mask : Mask

/-- `paint(e)` at image-space point `p`: set line width to the brush size and
the tool's composite operation, `lineTo(p)`, `stroke()`, then `beginPath()`
and `moveTo(p)` so successive segments are independent. -/
def paint (st : DrawState) (p : Point) : DrawState :=
  let path₁ := lineToPath p st.path
  let mask₁ := applyStroke st.tool ((st.brushSize : ℚ) / 2) (strokeSegments path₁) st.mask
  { st with path := [[p]], mask := mask₁ }

/-- `startDraw`: ignored unless an image is loaded; otherwise set
`isDrawing` and paint the first point at once. -/
def startDraw (st : DrawState) (p : Point) : DrawState :=
  if !st.imageLoaded then st
  else paint { st with isDrawing := true } p

/-- `draw` (mouse move): paint only while a stroke is in progress. -/
def draw (st : DrawState) (p : Point) : DrawState :=
  if !st.isDrawing then st else paint st p

/-- `stopDraw`: end the stroke and reset the context path. -/
def stopDraw (st : DrawState) : DrawState :=
  { st with isDrawing := false, path := [] }

/-!
## Concrete states used to evaluate the model
-/

/-- The session right after page load: nothing loaded, defaults from the
`state` object (`brush`, size 30), empty prompt, default canvases. -/
def session₀ : Session :=
  { imageLoaded := false, hasResult := false, tool := Tool.brush, brushSize := 30,
    promptText := "", imgC := Canvas.blank 300 150, maskC := Canvas.blank 300 150,
    resultC := Canvas.blank 300 150, loaderVisible := false, resultVisible := false,
    maskHidden := false }

/-- A tiny loaded session: a 1×1 image, a mask stroke covering its pixel,
and the prompt `"test"`. -/
def sessA : Session :=
  { imageLoaded := true, hasResult := false, tool := Tool.brush, brushSize := 30,
    promptText := "test", imgC := ⟨1, 1, [⟨100, 150, 17, 255⟩]⟩,
    maskC := ⟨1, 1, [⟨255, 50, 50, 255⟩]⟩, resultC := Canvas.blank 1 1,
    loaderVisible := false, resultVisible := false, maskHidden := false }

/-- `sessA` with the prompt field left empty. -/
def sessB : Session := { sessA with promptText := "" }

/-- A drawing state mid-stroke: brush of width 2, a 2×1 mask with partial
alpha, the context path holding the previous point `(0,0)`. -/
def stW : DrawState :=
  { imageLoaded := true, isDrawing := true, tool := Tool.brush, brushSize := 2,
    path := [[((0 : ℚ), (0 : ℚ))]], mask := ⟨2, [10, 10]⟩ }

/-- An idle drawing state over a 3×3 transparent mask, brush of width 30. -/
def stClick : DrawState :=
  { imageLoaded := true, isDrawing := false, tool := Tool.brush, brushSize := 30,
    path := [], mask := ⟨3, List.replicate 9 0⟩ }

/-!
## Helper lemmas
-/

theorem simulateInpaint_length (ms ps : List Pixel) :
    (simulateInpaint ms ps).length = ps.length := by
  induction ps generalizing ms with
  | nil => cases ms <;> rfl
  | cons p ps ih => cases ms <;> simp [simulateInpaint, ih]

theorem simulateInpaint_getElem? (ms ps : List Pixel) (i : Nat) (m p : Pixel)
    (hm : ms[i]? = some m) (hp : ps[i]? = some p) :
    (simulateInpaint ms ps)[i]? = some (if 0 < m.a then transformPixel p else p) := by
  induction ms generalizing ps i with
  | nil => simp at hm
  | cons m0 ms ih =>
    cases ps with
    | nil => simp at hp
    | cons p0 ps =>
      cases i with
      | zero =>
        simp at hm hp
        simp [simulateInpaint, hm, hp]
      | succ n =>
        simp at hm hp
        simpa [simulateInpaint] using ih ps n hm hp

theorem compositeAlpha_eraser_le (c a : Nat) : compositeAlpha Tool.eraser c a ≤ a := by
  show a * (255 - c) / 255 ≤ a
  calc a * (255 - c) / 255 ≤ a * 255 / 255 :=
        Nat.div_le_div_right (Nat.mul_le_mul_left a (Nat.sub_le 255 c))
    _ = a := Nat.mul_div_cancel a (by norm_num)

theorem compositeAlpha_brush_ge (c a : Nat) (ha : a ≤ 255) :
    a ≤ compositeAlpha Tool.brush c a := by
  show a ≤ c + a * (255 - c) / 255
  rcases Nat.le_total a c with h | h
  · exact le_trans h (Nat.le_add_right c _)
  · rcases Nat.lt_or_ge c 255 with hc | hc
    · have hic : (a : ℤ) * c ≤ 255 * c := by
        have h1 : (a : ℤ) ≤ 255 := by exact_mod_cast ha
        have h2 : (0 : ℤ) ≤ c := by positivity
        nlinarith
      have key : (a - c) * 255 ≤ a * (255 - c) := by
        zify [h, hc.le]
        nlinarith [hic]
      have hdiv : a - c ≤ a * (255 - c) / 255 :=
        (Nat.le_div_iff_mul_le (by norm_num)).2 key
      omega
    · exact le_trans (le_trans ha hc) (Nat.le_add_right c _)

theorem compositeFrom_getElem? (tool : Tool) (halfW : ℚ) (segs : List (Point × Point))
    (w : Nat) (as : List Nat) (start i : Nat) :
    (compositeFrom tool halfW segs w start as)[i]? =
      (as[i]?).map fun a => compositeAlpha tool (coverage segs halfW (pixPt w (start + i))) a := by
  induction as generalizing start i with
  | nil => simp [compositeFrom]
  | cons a as ih =>
    cases i with
    | zero => simp [compositeFrom]
    | succ n =>
      simp only [compositeFrom, List.getElem?_cons_succ, ih]
      have : start + 1 + n = start + (n + 1) := by omega
      rw [this]

/-!
## Claim theorems
-/

/-- C1: a successful generation leaves the Result Buffer equal to the Image
Buffer copied unchanged, except that every pixel whose mask alpha is nonzero
becomes `R' = (R+50) % 255`, `G' = (G+20) % 255`, `B' = 200` with alpha
unchanged, and every pixel with zero mask alpha is identical to the source
pixel. -/
theorem generate_result_compositor (s : Session) (hload : s.imageLoaded = true)
    (hprompt : s.promptText ≠ "") (hlen : s.maskC.data.length = s.imgC.data.length) :
    ((runGeneration s true).2.resultC.data).length = s.imgC.data.length ∧
    ∀ (i : Nat) (m p : Pixel), s.maskC.data[i]? = some m → s.imgC.data[i]? = some p →
      ((runGeneration s true).2.resultC.data)[i]? =
        some (if 0 < m.a then transformPixel p else p) := by
  have hres : (runGeneration s true).2.resultC.data =
      simulateInpaint s.maskC.data s.imgC.data := by
    simp [runGeneration, hload, hprompt]
  refine ⟨by rw [hres]; exact simulateInpaint_length _ _, ?_⟩
  intro i m p hm hp
  rw [hres]
  exact simulateInpaint_getElem? _ _ i m p hm hp

theorem generate_result_compositor_witness :
    sessA.imageLoaded = true ∧ sessA.promptText ≠ "" ∧
      sessA.maskC.data.length = sessA.imgC.data.length ∧
      ((runGeneration sessA true).2.resultC.data)[0]? =
        some (if 0 < (⟨255, 50, 50, 255⟩ : Pixel).a then
          transformPixel ⟨100, 150, 17, 255⟩ else ⟨100, 150, 17, 255⟩) :=
  ⟨rfl, by decide, rfl,
    (generate_result_compositor sessA rfl (by decide) rfl).2 0 _ _ rfl rfl⟩

/-- C2: for every mask state and paint operation, the eraser never increases
the alpha of any mask pixel, and the brush never decreases the alpha of any
mask pixel (in particular not of the pixels its stroke covers). -/
theorem paint_alpha_monotone (st : DrawState) (p : Point)
    (hval : ∀ a ∈ st.mask.alphas, a ≤ 255) (i : Nat) (a a' : Nat)
    (ha : st.mask.alphas[i]? = some a)
    (ha' : (paint st p).mask.alphas[i]? = some a') :
    (st.tool = Tool.eraser → a' ≤ a) ∧ (st.tool = Tool.brush → a ≤ a') := by
  have hmem : a ∈ st.mask.alphas := List.getElem?_mem ha
  have h255 : a ≤ 255 := hval a hmem
  have heq : (paint st p).mask.alphas[i]? =
      some (compositeAlpha st.tool
        (coverage (strokeSegments (lineToPath p st.path)) ((st.brushSize : ℚ) / 2)
          (pixPt st.mask.w (0 + i))) a) := by
    show (compositeFrom st.tool _ _ st.mask.w 0 st.mask.alphas)[i]? = _
    rw [compositeFrom_getElem?, ha]
    rfl
  rw [heq] at ha'
  have ha'' : a' = compositeAlpha st.tool
      (coverage (strokeSegments (lineToPath p st.path)) ((st.brushSize : ℚ) / 2)
        (pixPt st.mask.w (0 + i))) a := by
    exact (Option.some_inj.mp ha').symm
  constructor
  · intro ht; rw [ha'', ht]; exact compositeAlpha_eraser_le _ a
  · intro ht; rw [ha'', ht]; exact compositeAlpha_brush_ge _ a h255

theorem paint_alpha_monotone_witness :
    (∀ a ∈ stW.mask.alphas, a ≤ 255) ∧ stW.mask.alphas[0]? = some 10 ∧
      (paint stW ((2 : ℚ), (0 : ℚ))).mask.alphas[0]? = some 255 ∧ (10 : Nat) ≤ 255 :=
  ⟨by decide, by decide, of_decide_eq_true (by with_unfolding_all rfl),
    (paint_alpha_monotone stW ((2 : ℚ), (0 : ℚ)) (by decide) 0 10 255
      (by decide) (of_decide_eq_true (by with_unfolding_all rfl))).2 rfl⟩

/-- C3: calling generate with no image loaded fails with the no-image
validation alert and changes nothing: the returned session — mask and
result buffers included — is the input session. -/
theorem generate_no_image (s : Session) (ok : Bool) (h : s.imageLoaded = false) :
    runGeneration s ok = (GenOutcome.validationNoImage, s) := by
  simp [runGeneration, h]

theorem generate_no_image_witness :
    session₀.imageLoaded = false ∧
      runGeneration session₀ true = (GenOutcome.validationNoImage, session₀) :=
  ⟨rfl, generate_no_image session₀ true rfl⟩

/-- C4: calling generate with an image loaded but an empty prompt fails with
the empty-prompt validation alert and mutates no state: the returned
session is the input session. -/
theorem generate_empty_prompt (s : Session) (ok : Bool) (h : s.imageLoaded = true)
    (hp : s.promptText = "") :
    runGeneration s ok = (GenOutcome.validationEmptyPrompt, s) := by
  simp [runGeneration, h, hp]

theorem generate_empty_prompt_witness :
    sessB.imageLoaded = true ∧ sessB.promptText = "" ∧
      runGeneration sessB true = (GenOutcome.validationEmptyPrompt, sessB) :=
  ⟨rfl, rfl, generate_empty_prompt sessB true rfl rfl⟩

/-- C5: after any upload, `hasResult` is false, the mask canvas has exactly
the dimensions of the (possibly downscaled) image canvas, and the mask
bitmap is fully transparent. -/
theorem upload_resets_mask (s : Session) (img : Canvas) :
    (handleImageUpload s img).hasResult = false ∧
    (handleImageUpload s img).maskC.w = (handleImageUpload s img).imgC.w ∧
    (handleImageUpload s img).maskC.h = (handleImageUpload s img).imgC.h ∧
    (handleImageUpload s img).maskC.data =
      List.replicate ((handleImageUpload s img).maskC.w * (handleImageUpload s img).maskC.h)
        Pixel.clear := by
  refine ⟨rfl, rfl, rfl, rfl⟩

/-- C6 (amended): an upload of an image wider than 2048 stores width exactly
2048 and height `⌊h·2048/w⌋` — the scaled height truncated, not rounded —
while an image of width at most 2048 keeps its dimensions. -/
theorem upload_dims (s : Session) (img : Canvas) :
    (handleImageUpload s img).imgC.w = (if 2048 < img.w then 2048 else img.w) ∧
    (handleImageUpload s img).imgC.h =
      (if 2048 < img.w then img.h * 2048 / img.w else img.h) := by
  constructor
  · show (finalDims img.w img.h).1 = _
    unfold finalDims
    split <;> rfl
  · show (finalDims img.w img.h).2 = _
    unfold finalDims
    split <;> rfl

/-- C6 counterexample: a 2049×1 image. The code stores height
`⌊1·2048/2049⌋ = 0`, while the claimed `round(1·2048/2049)` is `1`. -/
theorem upload_height_not_rounded :
    ((handleImageUpload session₀ ⟨2049, 1, [Pixel.clear]⟩).imgC.h : ℤ) ≠
      round ((1 * 2048 : ℚ) / 2049) := by
  have h1 : (handleImageUpload session₀ ⟨2049, 1, [Pixel.clear]⟩).imgC.h = 0 := rfl
  have h2 : round ((1 * 2048 : ℚ) / 2049) = 1 := by norm_num [round_eq]
  rw [h1, h2]
  norm_num

/-- C7: the claim says a single click (stroke-start then stroke-end with no
movement) paints a dot of the brush's diameter. Evaluating the code at the
failing input — image loaded, brush of width 30, idle path, a click at
`(1,1)` over a transparent 3×3 mask — shows the mask is left completely
unchanged: canvas `stroke()` prunes a subpath holding a single point, so
the first `paint` of a stroke draws nothing and a click without movement
produces no dot at all (the clicked pixel keeps alpha 0). -/
theorem single_click_paints_nothing :
    (stopDraw (startDraw stClick ((1 : ℚ), (1 : ℚ)))).mask = stClick.mask ∧
      (stopDraw (startDraw stClick ((1 : ℚ), (1 : ℚ)))).mask.alphas[4]? = some 0 ∧
      stClick.imageLoaded = true ∧ stClick.brushSize = 30 := by
  decide

/-- C8: a generation run that fails after validation — the awaited
backend/delay step, the one fallible operation of the `try` block, rejects —
surfaces the failure alert, clears the loading indicator, and commits no
partial result: the session differs from the input only in the cleared
loader flag, so the Result Buffer (and `hasResult`) are unchanged. -/
theorem generate_failure_no_partial_result (s : Session) (hload : s.imageLoaded = true)
    (hprompt : s.promptText ≠ "") :
    runGeneration s false = (GenOutcome.generationFailed, { s with loaderVisible := false }) := by
  simp [runGeneration, hload, hprompt]

theorem generate_failure_no_partial_result_witness :
    sessA.imageLoaded = true ∧ sessA.promptText ≠ "" ∧
      runGeneration sessA false =
        (GenOutcome.generationFailed, { sessA with loaderVisible := false }) :=
  ⟨rfl, by decide, generate_failure_no_partial_result sessA rfl (by decide)⟩

/-- C9: a successful generation reads but does not write the Image Buffer
and the Mask Buffer: both canvases are unchanged, as are the session's
other fields (`imageLoaded`, tool, brush size, prompt); it writes the
Result Buffer with the composited pixels and sets `hasResult`. -/
theorem generate_success_frame (s : Session) (hload : s.imageLoaded = true)
    (hprompt : s.promptText ≠ "") :
    (runGeneration s true).1 = GenOutcome.success ∧
    (runGeneration s true).2.imgC = s.imgC ∧
    (runGeneration s true).2.maskC = s.maskC ∧
    (runGeneration s true).2.imageLoaded = s.imageLoaded ∧
    (runGeneration s true).2.tool = s.tool ∧
    (runGeneration s true).2.brushSize = s.brushSize ∧
    (runGeneration s true).2.promptText = s.promptText ∧
    (runGeneration s true).2.hasResult = true ∧
    (runGeneration s true).2.resultC.data = simulateInpaint s.maskC.data s.imgC.data := by
  simp [runGeneration, hload, hprompt]

theorem generate_success_frame_witness :
    sessA.imageLoaded = true ∧ sessA.promptText ≠ "" ∧
      (runGeneration sessA true).2.imgC = sessA.imgC ∧
      (runGeneration sessA true).2.maskC = sessA.maskC :=
  ⟨rfl, by decide,
    (generate_success_frame sessA rfl (by decide)).2.1,
    (generate_success_frame sessA rfl (by decide)).2.2.1⟩

/-- C10: calling export with no image loaded is a no-op: no file is produced
and the session is returned unchanged. -/
theorem export_no_image (s : Session) (h : s.imageLoaded = false) :
    exportImage s = (none, s) := by
  simp [exportImage, h]

theorem export_no_image_witness :
    session₀.imageLoaded = false ∧ exportImage session₀ = (none, session₀) :=
  ⟨rfl, export_no_image session₀ rfl⟩
